import Mathlib

/-!
Verification of the reservation/notification pipeline of a tattoo-studio
management app (React front end, Deno edge functions).

Shallow embedding conventions:
* JavaScript strings are modelled as lists of UTF-16 code units (`List Nat`);
  `str` converts a Lean string literal to that form.
* JavaScript `Date` values and `Date.now()` are modelled as integer epoch
  milliseconds; local time is modelled with a constant UTC offset, so the local
  midnight of "now" is a single integer parameter.
* JavaScript numbers holding money amounts are modelled as rationals.
* Fallible persistence calls (supabase inserts/updates/deletes) are modelled as
  `Except`-valued oracles passed to the embedded operation.
-/

namespace Studio

/-- A JavaScript string: a list of UTF-16 code units. -/
abbrev Str := List Nat

/-- Convert a Lean string literal to the code-unit model (ASCII contents only
in this development, so `Char.toNat` is the code unit). -/
def str (s : String) : Str := s.toList.map Char.toNat

/-- `String.prototype.toLowerCase` on one code unit, for the ASCII range
(the only range exercised by this app's data). -/
def jsToLower (u : Nat) : Nat := if 65 ≤ u ∧ u ≤ 90 then u + 32 else u

/-- `String.prototype.toLowerCase` over a whole string. -/
def lowerStr (s : Str) : Str := s.map jsToLower

/-- Does `hay` begin with `needle`?  (Helper for `jsIncludes`.) -/
def beginsWith : Str → Str → Bool
  | [], _ => true
  | _ :: _, [] => false
  | a :: as, b :: bs => a == b && beginsWith as bs

/-- `hay.includes(needle)` from JavaScript: `needle` occurs contiguously in
`hay`. -/
def jsIncludes : Str → Str → Bool
  | [], needle => needle.isEmpty
  | c :: t, needle => beginsWith needle (c :: t) || jsIncludes t needle

/-- Code unit of a decimal digit: `48` is the code of the character zero. -/
def isDigitU (u : Nat) : Bool := 48 ≤ u && u ≤ 57

/-- `Number.prototype.toString` for a nonnegative integer: most significant
digit first.  The first argument is fuel (any bound on the value works). -/
def natToDecAux : Nat → Nat → Str → Str
  | 0, _, acc => acc
  | fuel + 1, n, acc =>
      if n = 0 then acc else natToDecAux fuel (n / 10) ((48 + n % 10) :: acc)

/-- `n.toString()` for a nonnegative integer `n`. -/
def natToDec (n : Nat) : Str := if n = 0 then [48] else natToDecAux n n []

/-- Decimal value of a digit string, most significant digit first. -/
def decVal : Str → Nat
  | [] => 0
  | u :: t => (u - 48) * 10 ^ t.length + decVal t

theorem decValArith (q r k d n : Nat) (h : 10 * q + r = n) :
    q * (k * 10) + (r * k + d) = n * k + d := by
  subst h
  ring

theorem decVal_natToDecAux (fuel : Nat) :
    ∀ n acc, n ≤ fuel →
      decVal (natToDecAux fuel n acc) = n * 10 ^ acc.length + decVal acc := by
  induction fuel with
  | zero =>
      intro n acc hn
      interval_cases n
      simp [natToDecAux]
  | succ fuel ih =>
      intro n acc hn
      by_cases h0 : n = 0
      · simp [natToDecAux, h0]
      · have hdiv : n / 10 ≤ fuel := by
          have h1 : n / 10 < n := Nat.div_lt_self (Nat.pos_of_ne_zero h0) (by omega)
          omega
        have := ih (n / 10) ((48 + n % 10) :: acc) hdiv
        rw [natToDecAux, if_neg h0, this]
        have hmod : 48 + n % 10 - 48 = n % 10 := by omega
        simp only [decVal, List.length_cons, hmod, pow_succ]
        exact decValArith (n / 10) (n % 10) (10 ^ acc.length) (decVal acc) n
          (Nat.div_add_mod n 10)

theorem decVal_natToDec (n : Nat) : decVal (natToDec n) = n := by
  by_cases h0 : n = 0
  · simp [natToDec, h0, decVal]
  · rw [natToDec, if_neg h0, decVal_natToDecAux n n [] (le_refl n)]
    simp [decVal]

theorem natToDec_inj {a b : Nat} (h : natToDec a = natToDec b) : a = b := by
  have ha := decVal_natToDec a
  have hb := decVal_natToDec b
  rw [h] at ha
  omega

theorem natToDecAux_digits (fuel : Nat) :
    ∀ n acc, (∀ u ∈ acc, isDigitU u = true) →
      ∀ u ∈ natToDecAux fuel n acc, isDigitU u = true := by
  induction fuel with
  | zero =>
      intro n acc hacc u hu
      exact hacc u hu
  | succ fuel ih =>
      intro n acc hacc u hu
      by_cases h0 : n = 0
      · rw [natToDecAux, if_pos h0] at hu
        exact hacc u hu
      · rw [natToDecAux, if_neg h0] at hu
        refine ih (n / 10) ((48 + n % 10) :: acc) ?_ u hu
        intro v hv
        rcases List.mem_cons.mp hv with hv1 | hv2
        · have : n % 10 < 10 := Nat.mod_lt n (by omega)
          subst hv1
          simp only [isDigitU, Bool.and_eq_true, decide_eq_true_eq]
          omega
        · exact hacc v hv2

theorem natToDec_digits (n : Nat) : ∀ u ∈ natToDec n, isDigitU u = true := by
  by_cases h0 : n = 0
  · intro u hu
    simp [natToDec, h0] at hu
    subst hu
    decide
  · rw [natToDec, if_neg h0]
    exact natToDecAux_digits n n [] (by intro u hu; cases hu)

theorem beginsWith_mem : ∀ needle hay : Str, beginsWith needle hay = true →
    ∀ u ∈ needle, u ∈ hay := by
  intro needle
  induction needle with
  | nil =>
      intro hay _ u hu
      cases hu
  | cons a as ih =>
      intro hay hb u hu
      cases hay with
      | nil => simp [beginsWith] at hb
      | cons b bs =>
          simp only [beginsWith, Bool.and_eq_true, beq_iff_eq] at hb
          rcases List.mem_cons.mp hu with h1 | h2
          · subst h1
            exact List.mem_cons.mpr (Or.inl hb.1)
          · exact List.mem_cons.mpr (Or.inr (ih bs hb.2 u h2))

theorem jsIncludes_mem : ∀ hay needle : Str, jsIncludes hay needle = true →
    ∀ u ∈ needle, u ∈ hay := by
  intro hay
  induction hay with
  | nil =>
      intro needle h u hu
      simp only [jsIncludes, List.isEmpty_iff] at h
      subst h
      cases hu
  | cons c t ih =>
      intro needle h u hu
      simp only [jsIncludes, Bool.or_eq_true] at h
      rcases h with h1 | h2
      · exact beginsWith_mem needle (c :: t) h1 u hu
      · exact List.mem_cons.mpr (Or.inr (ih needle h2 u hu))

theorem lowerStr_of_digits {s : Str} (h : ∀ u ∈ s, isDigitU u = true) :
    lowerStr s = s := by
  unfold lowerStr
  rw [List.map_congr_left (g := id)]
  · exact List.map_id s
  · intro u hu
    have := h u hu
    simp only [isDigitU, Bool.and_eq_true, decide_eq_true_eq] at this
    simp only [jsToLower, id]
    rw [if_neg]
    omega

/-- On a digits-only haystack, lowering the needle first changes nothing:
either the needle has no ASCII uppercase letter (so lowering fixes it), or it
has one, and then neither the raw nor the lowered needle can occur among
digits. -/
theorem jsIncludes_digits_lower {hay q : Str} (hd : ∀ u ∈ hay, isDigitU u = true) :
    jsIncludes hay (lowerStr q) = jsIncludes hay q := by
  by_cases hup : ∀ u ∈ q, jsToLower u = u
  · have : lowerStr q = q := by
      unfold lowerStr
      rw [List.map_congr_left (g := id) (by intro a ha; simp [hup a ha])]
      exact List.map_id q
    rw [this]
  · push_neg at hup
    obtain ⟨u, hu, hne⟩ := hup
    have hrange : 65 ≤ u ∧ u ≤ 90 := by
      by_contra hc
      exact hne (by simp [jsToLower, hc])
    have hlhs : jsIncludes hay q = false := by
      by_contra hc
      have hmem := jsIncludes_mem hay q (by revert hc; cases jsIncludes hay q <;> simp) u hu
      have := hd u hmem
      simp only [isDigitU, Bool.and_eq_true, decide_eq_true_eq] at this
      omega
    have hrhs : jsIncludes hay (lowerStr q) = false := by
      by_contra hc
      have hmem2 : jsToLower u ∈ lowerStr q := List.mem_map_of_mem jsToLower hu
      have hmem := jsIncludes_mem hay (lowerStr q)
        (by revert hc; cases jsIncludes hay (lowerStr q) <;> simp) (jsToLower u) hmem2
      have := hd (jsToLower u) hmem
      simp only [isDigitU, Bool.and_eq_true, decide_eq_true_eq] at this
      simp only [jsToLower, if_pos hrange] at this
      omega
    rw [hlhs, hrhs]

/-- The `Reservation` record shape from `DataContext.tsx`.  `createdAt` is the
`created_at` timestamp in epoch milliseconds (the TS interface marks it
optional, but every persisted row carries it; the analytics code assumes it is
present). -/
structure Reservation where
  id : Str
  reservationNumber : Nat
  firstName : Str
  lastName : Str
  phone : Str
  appointmentDate : Str
  appointmentTime : Str
  totalPrice : ℚ
  depositPaid : ℚ
  isPaid : Bool
  depositPaidStatus : Bool
  restPaidStatus : Bool
  designImages : Option (List Str)
  notes : Option Str
  artistId : Option Str
  createdAt : Int
deriving DecidableEq

/-- `Partial<Reservation>` from TypeScript: every field optional.  A `none`
field is absent from the update object. -/
structure PartialReservation where
  id : Option Str
  reservationNumber : Option Nat
  firstName : Option Str
  lastName : Option Str
  phone : Option Str
  appointmentDate : Option Str
  appointmentTime : Option Str
  totalPrice : Option ℚ
  depositPaid : Option ℚ
  isPaid : Option Bool
  depositPaidStatus : Option Bool
  restPaidStatus : Option Bool
  designImages : Option (Option (List Str))
  notes : Option (Option Str)
  artistId : Option (Option Str)
  createdAt : Option Int
deriving DecidableEq

/-- The empty update object `{}`. -/
def emptyPartial : PartialReservation :=
  ⟨none, none, none, none, none, none, none, none, none, none, none, none,
   none, none, none, none⟩

/-- The JavaScript spread merge `{ ...res, ...updates }` from
`DataContext.tsx` line 114: a field present in `updates` wins, every other
field keeps its value from `res`. -/
def applyUpdates (r : Reservation) (u : PartialReservation) : Reservation where
  id := u.id.getD r.id
  reservationNumber := u.reservationNumber.getD r.reservationNumber
  firstName := u.firstName.getD r.firstName
  lastName := u.lastName.getD r.lastName
  phone := u.phone.getD r.phone
  appointmentDate := u.appointmentDate.getD r.appointmentDate
  appointmentTime := u.appointmentTime.getD r.appointmentTime
  totalPrice := u.totalPrice.getD r.totalPrice
  depositPaid := u.depositPaid.getD r.depositPaid
  isPaid := u.isPaid.getD r.isPaid
  depositPaidStatus := u.depositPaidStatus.getD r.depositPaidStatus
  restPaidStatus := u.restPaidStatus.getD r.restPaidStatus
  designImages := u.designImages.getD r.designImages
  notes := u.notes.getD r.notes
  artistId := u.artistId.getD r.artistId
  createdAt := u.createdAt.getD r.createdAt

/-- The `matchesSearch` predicate of `ViewReservations.tsx` lines 35-39:

    reservation.reservationNumber.toString().includes(searchTerm) ||
    reservation.firstName.toLowerCase().includes(searchTerm.toLowerCase()) ||
    reservation.lastName.toLowerCase().includes(searchTerm.toLowerCase()) ||
    reservation.phone.includes(searchTerm)
-/
def matchesSearch (r : Reservation) (searchTerm : Str) : Bool :=
  jsIncludes (natToDec r.reservationNumber) searchTerm ||
  jsIncludes (lowerStr r.firstName) (lowerStr searchTerm) ||
  jsIncludes (lowerStr r.lastName) (lowerStr searchTerm) ||
  jsIncludes r.phone searchTerm

/-- "q is a case-insensitive substring of s", the relation used by the spec
for the text-search claim. -/
def ciIncludes (s q : Str) : Bool := jsIncludes (lowerStr s) (lowerStr q)

/-- The text-search predicate exactly as the spec claim words it: the query is
a case-insensitive substring of the number as decimal text, of the first name,
of the last name, or of the phone. -/
def searchSpecClaim (r : Reservation) (q : Str) : Bool :=
  ciIncludes (natToDec r.reservationNumber) q ||
  ciIncludes r.firstName q ||
  ciIncludes r.lastName q ||
  ciIncludes r.phone q

/-- The amended text-search predicate: as claimed, except that the phone match
is case-sensitive. -/
def searchSpecAmended (r : Reservation) (q : Str) : Bool :=
  ciIncludes (natToDec r.reservationNumber) q ||
  ciIncludes r.firstName q ||
  ciIncludes r.lastName q ||
  jsIncludes r.phone q

/-- A reservation whose phone contains ASCII uppercase letters. -/
def resPhoneUpper : Reservation :=
  ⟨str "r1", 1, str "x", str "y", str "AB", str "2025-06-01", str "10:00",
   0, 0, false, false, false, none, none, none, 0⟩

/-- C1 (counterexample): with phone "AB" and query "ab", the query is a
case-insensitive substring of the phone, yet the code's filter drops the
reservation, because the phone comparison is case-sensitive. -/
theorem C1_counterexample :
    searchSpecClaim resPhoneUpper (str "ab") = true ∧
    matchesSearch resPhoneUpper (str "ab") = false := by
  constructor <;> rfl

/-- C1 (amended): a reservation is retained by the text-search predicate iff
the query is a case-insensitive substring of the reservation number as decimal
text, or of the first name, or of the last name, or (case-sensitively) of the
phone. -/
theorem C1_search_filter (r : Reservation) (q : Str) :
    matchesSearch r q = searchSpecAmended r q := by
  unfold matchesSearch searchSpecAmended ciIncludes
  have hdig := natToDec_digits r.reservationNumber
  rw [lowerStr_of_digits hdig, jsIncludes_digits_lower hdig]

/-- The analytics period selector of `ReservationAnalytics.tsx`. -/
inductive Period where
  | today
  | yesterday
  | week
  | month
deriving DecidableEq

/-- `24 * 60 * 60 * 1000` milliseconds. -/
def msPerDay : Int := 86400000

/-- The `{ start, end }` range returned by `getDateRange`. -/
structure DateRange where
  startMs : Int
  endMs : Int
deriving DecidableEq

/-- `getDateRange` of `ReservationAnalytics.tsx` lines 15-46.
`todayMidnightMs` models `new Date(now.getFullYear(), now.getMonth(),
now.getDate())`: the local midnight preceding "now", in epoch milliseconds
(local time modelled with a constant UTC offset). -/
def getDateRange (p : Period) (todayMidnightMs : Int) : DateRange :=
  match p with
  | .today => ⟨todayMidnightMs, todayMidnightMs + msPerDay - 1⟩
  | .yesterday =>
      ⟨todayMidnightMs - msPerDay, todayMidnightMs - msPerDay + msPerDay - 1⟩
  | .week => ⟨todayMidnightMs - 7 * msPerDay, todayMidnightMs + msPerDay - 1⟩
  | .month => ⟨todayMidnightMs - 30 * msPerDay, todayMidnightMs + msPerDay - 1⟩

/-- The filter predicate of `ReservationAnalytics.tsx` lines 50-53:
`createdDate >= range.start && createdDate <= range.end`, on the creation
timestamp. -/
def inAnalyticsPeriod (p : Period) (todayMidnightMs : Int) (r : Reservation) : Bool :=
  decide ((getDateRange p todayMidnightMs).startMs ≤ r.createdAt) &&
  decide (r.createdAt ≤ (getDateRange p todayMidnightMs).endMs)

/-- The `filteredReservations` of the analytics view (the subsequent sort does
not change membership, so the counting aggregates see exactly this set). -/
def analyticsFiltered (p : Period) (todayMidnightMs : Int)
    (rs : List Reservation) : List Reservation :=
  rs.filter (inAnalyticsPeriod p todayMidnightMs)

/-- The first midnight of the period, per the spec: whole-day offsets from the
local midnight of "now". -/
def periodFirstMidnight (p : Period) (todayMidnightMs : Int) : Int :=
  match p with
  | .today => todayMidnightMs
  | .yesterday => todayMidnightMs - msPerDay
  | .week => todayMidnightMs - 7 * msPerDay
  | .month => todayMidnightMs - 30 * msPerDay

/-- The (exclusive) end midnight of the period, per the spec. -/
def periodEndMidnight (p : Period) (todayMidnightMs : Int) : Int :=
  match p with
  | .yesterday => todayMidnightMs
  | _ => todayMidnightMs + msPerDay

/-- C2 (confirmed): a reservation is counted in an analytics period iff its
creation timestamp (not its appointment date) lies in the period's day range,
a half-open interval whose endpoints are whole-day offsets from local
midnight: today is `[M, M+1d)`, yesterday `[M-1d, M)`, last 7 days
`[M-7d, M+1d)`, last 30 days `[M-30d, M+1d)`. -/
theorem C2_analytics_period (p : Period) (M : Int) (rs : List Reservation)
    (r : Reservation) :
    r ∈ analyticsFiltered p M rs ↔
      r ∈ rs ∧ periodFirstMidnight p M ≤ r.createdAt ∧
        r.createdAt < periodEndMidnight p M := by
  unfold analyticsFiltered
  rw [List.mem_filter]
  unfold inAnalyticsPeriod
  cases p <;>
    simp only [getDateRange, periodFirstMidnight, periodEndMidnight,
      Bool.and_eq_true, decide_eq_true_eq] <;>
    constructor <;> rintro ⟨h1, h2, h3⟩ <;> refine ⟨h1, h2, by omega⟩

/-- Witness for C2: a reservation created at millisecond 5 of the day whose
local midnight is 0 is counted in "today", and one created exactly at the next
midnight is not. -/
theorem C2_analytics_period_witness :
    (⟨str "w", 9, str "f", str "l", str "p", str "d", str "t", 0, 0,
      false, false, false, none, none, none, 5⟩ : Reservation) ∈
      analyticsFiltered Period.today 0
        [⟨str "w", 9, str "f", str "l", str "p", str "d", str "t", 0, 0,
          false, false, false, none, none, none, 5⟩] ∧
    (⟨str "w", 9, str "f", str "l", str "p", str "d", str "t", 0, 0,
      false, false, false, none, none, none, 86400000⟩ : Reservation) ∉
      analyticsFiltered Period.today 0
        [⟨str "w", 9, str "f", str "l", str "p", str "d", str "t", 0, 0,
          false, false, false, none, none, none, 86400000⟩] := by
  constructor
  · exact (C2_analytics_period Period.today 0 _ _).mpr
      ⟨List.mem_singleton.mpr rfl, by decide, by decide⟩
  · intro hmem
    have h := (C2_analytics_period Period.today 0 _ _).mp hmem
    have h2 := h.2.2
    simp [periodEndMidnight, msPerDay] at h2

/-- `Number.prototype.toFixed(2)`, as the integer number of displayed cents:
round half away from zero is indistinguishable from the ECMAScript "pick the
larger candidate" rule on the exact values this app displays; Mathlib's
`round` (half towards plus infinity) models it. -/
def toFixed2 (x : ℚ) : Int := round (x * 100)

/-- The remaining amount shown in the reservation table,
`ViewReservations.tsx` line 371:
`(reservation.totalPrice - reservation.depositPaid).toFixed(2)`. -/
def tableRemainingCents (r : Reservation) : Int :=
  toFixed2 (r.totalPrice - r.depositPaid)

/-- The reservation payload of the outbound WhatsApp notification function. -/
structure ReservationData where
  reservationNumber : Nat
  firstName : Str
  lastName : Str
  phone : Str
  appointmentDate : Str
  appointmentTime : Str
  totalPrice : ℚ
  depositPaid : ℚ
  artistName : Option Str
  notes : Option Str
  designImages : Option (List Str)
deriving DecidableEq

/-- `remainingAmount` of the notification function (line 40):
`reservation.totalPrice - reservation.depositPaid`, computed before any
rounding. -/
def remainingAmount (d : ReservationData) : ℚ := d.totalPrice - d.depositPaid

/-- The remaining amount rendered into the notification message (line 54):
`remainingAmount.toFixed(2)`. -/
def messageRemainingCents (d : ReservationData) : Int :=
  toFixed2 (remainingAmount d)

/-- C5 (confirmed): both displayed remaining amounts equal `T - D` exactly:
whenever `T - D` is a whole number of cents `n` (always the case for stored
currency amounts), the table cell and the notification message both render
exactly `n` cents, the two-decimal rounding touching only the rendering; the
stored `totalPrice` and `depositPaid` are not modified by either display
path. -/
theorem C5_remaining_exact (r : Reservation) (d : ReservationData) (n : Int)
    (h1 : r.totalPrice = d.totalPrice) (h2 : r.depositPaid = d.depositPaid)
    (h3 : (d.totalPrice - d.depositPaid) * 100 = (n : ℚ)) :
    tableRemainingCents r = n ∧ messageRemainingCents d = n ∧
      remainingAmount d = d.totalPrice - d.depositPaid := by
  refine ⟨?_, ?_, rfl⟩
  · unfold tableRemainingCents toFixed2
    rw [h1, h2, h3, round_intCast]
  · unfold messageRemainingCents toFixed2 remainingAmount
    rw [h3, round_intCast]

/-- Witness for C5 at the spec's own scenario: total 250.00, deposit 50.00,
displayed remaining 200.00 (20000 cents). -/
theorem C5_remaining_exact_witness :
    tableRemainingCents
      ⟨str "r1", 1042, str "a", str "b", str "p", str "d", str "t",
       250, 50, false, false, false, none, none, none, 0⟩ = 20000 ∧
    messageRemainingCents
      ⟨1042, str "a", str "b", str "p", str "d", str "t", 250, 50,
       none, none, none⟩ = 20000 ∧
    remainingAmount
      ⟨1042, str "a", str "b", str "p", str "d", str "t", 250, 50,
       none, none, none⟩ = 250 - 50 := by
  exact C5_remaining_exact
    ⟨str "r1", 1042, str "a", str "b", str "p", str "d", str "t",
     250, 50, false, false, false, none, none, none, 0⟩
    ⟨1042, str "a", str "b", str "p", str "d", str "t", 250, 50,
     none, none, none⟩ 20000 rfl rfl (by norm_num)

/-- `addReservation` of `DataContext.tsx` lines 87-102.  The insert call's
outcome (the returned row, or the thrown error) is the `insertResult`
argument; on success the returned row is prepended to local state, on failure
the error is rethrown and local state is untouched.  The result pairs what the
caller sees with the new local collection. -/
def addReservation (state : List Reservation)
    (insertResult : Except Str Reservation) :
    Except Str Unit × List Reservation :=
  match insertResult with
  | Except.ok row => (Except.ok (), row :: state)
  | Except.error e => (Except.error e, state)

/-- `updateReservation` of `DataContext.tsx` lines 104-120: on success, map
over the collection replacing each record whose id matches with the spread
merge `{ ...res, ...updates }`; on failure, rethrow and leave state alone. -/
def updateReservation (state : List Reservation) (rid : Str)
    (u : PartialReservation) (dbResult : Except Str Unit) :
    Except Str Unit × List Reservation :=
  match dbResult with
  | Except.ok _ =>
      (Except.ok (),
        state.map (fun res => if res.id == rid then applyUpdates res u else res))
  | Except.error e => (Except.error e, state)

/-- `deleteReservation` of `DataContext.tsx` lines 122-136: on success, keep
the records whose id differs; on failure, rethrow and leave state alone. -/
def deleteReservation (state : List Reservation) (rid : Str)
    (dbResult : Except Str Unit) :
    Except Str Unit × List Reservation :=
  match dbResult with
  | Except.ok _ => (Except.ok (), state.filter (fun res => res.id != rid))
  | Except.error e => (Except.error e, state)

/-- C6 (confirmed): a successful create prepends the returned row to the local
collection, so the new reservation is listed first. -/
theorem C6_create_prepends (state : List Reservation) (row : Reservation) :
    (addReservation state (Except.ok row)).2 = row :: state ∧
      ((addReservation state (Except.ok row)).2).head? = some row := by
  exact ⟨rfl, rfl⟩

/-- C7 (confirmed): a successful update keeps the collection's length and
order, leaves every record whose id differs unchanged, replaces each record
whose id matches with the spread merge, and the spread merge changes exactly
the supplied fields: an absent field keeps the old value and a supplied field
takes the supplied value (shown for every field of the record). -/
theorem C7_update_frame (state : List Reservation) (rid : Str)
    (u : PartialReservation) :
    ((updateReservation state rid u (Except.ok ())).2.length = state.length) ∧
    (∀ i (h1 : i < state.length)
        (h2 : i < (updateReservation state rid u (Except.ok ())).2.length),
      ((state.get ⟨i, h1⟩).id ≠ rid →
        (updateReservation state rid u (Except.ok ())).2.get ⟨i, h2⟩ =
          state.get ⟨i, h1⟩) ∧
      ((state.get ⟨i, h1⟩).id = rid →
        (updateReservation state rid u (Except.ok ())).2.get ⟨i, h2⟩ =
          applyUpdates (state.get ⟨i, h1⟩) u)) ∧
    (∀ r : Reservation,
      (u.id = none → (applyUpdates r u).id = r.id) ∧
      (∀ v, u.id = some v → (applyUpdates r u).id = v) ∧
      (u.reservationNumber = none →
        (applyUpdates r u).reservationNumber = r.reservationNumber) ∧
      (∀ v, u.reservationNumber = some v →
        (applyUpdates r u).reservationNumber = v) ∧
      (u.firstName = none → (applyUpdates r u).firstName = r.firstName) ∧
      (∀ v, u.firstName = some v → (applyUpdates r u).firstName = v) ∧
      (u.lastName = none → (applyUpdates r u).lastName = r.lastName) ∧
      (∀ v, u.lastName = some v → (applyUpdates r u).lastName = v) ∧
      (u.phone = none → (applyUpdates r u).phone = r.phone) ∧
      (∀ v, u.phone = some v → (applyUpdates r u).phone = v) ∧
      (u.appointmentDate = none →
        (applyUpdates r u).appointmentDate = r.appointmentDate) ∧
      (∀ v, u.appointmentDate = some v →
        (applyUpdates r u).appointmentDate = v) ∧
      (u.appointmentTime = none →
        (applyUpdates r u).appointmentTime = r.appointmentTime) ∧
      (∀ v, u.appointmentTime = some v →
        (applyUpdates r u).appointmentTime = v) ∧
      (u.totalPrice = none → (applyUpdates r u).totalPrice = r.totalPrice) ∧
      (∀ v, u.totalPrice = some v → (applyUpdates r u).totalPrice = v) ∧
      (u.depositPaid = none → (applyUpdates r u).depositPaid = r.depositPaid) ∧
      (∀ v, u.depositPaid = some v → (applyUpdates r u).depositPaid = v) ∧
      (u.isPaid = none → (applyUpdates r u).isPaid = r.isPaid) ∧
      (∀ v, u.isPaid = some v → (applyUpdates r u).isPaid = v) ∧
      (u.depositPaidStatus = none →
        (applyUpdates r u).depositPaidStatus = r.depositPaidStatus) ∧
      (∀ v, u.depositPaidStatus = some v →
        (applyUpdates r u).depositPaidStatus = v) ∧
      (u.restPaidStatus = none →
        (applyUpdates r u).restPaidStatus = r.restPaidStatus) ∧
      (∀ v, u.restPaidStatus = some v →
        (applyUpdates r u).restPaidStatus = v) ∧
      (u.designImages = none →
        (applyUpdates r u).designImages = r.designImages) ∧
      (∀ v, u.designImages = some v → (applyUpdates r u).designImages = v) ∧
      (u.notes = none → (applyUpdates r u).notes = r.notes) ∧
      (∀ v, u.notes = some v → (applyUpdates r u).notes = v) ∧
      (u.artistId = none → (applyUpdates r u).artistId = r.artistId) ∧
      (∀ v, u.artistId = some v → (applyUpdates r u).artistId = v) ∧
      (u.createdAt = none → (applyUpdates r u).createdAt = r.createdAt) ∧
      (∀ v, u.createdAt = some v → (applyUpdates r u).createdAt = v)) := by
  refine ⟨by simp [updateReservation], ?_, ?_⟩
  · intro i h1 h2
    constructor
    · intro hne
      simp only [updateReservation] at h2 ⊢
      rw [List.get_map]
      rw [if_neg (by simpa using hne)]
    · intro heq
      simp only [updateReservation] at h2 ⊢
      rw [List.get_map]
      rw [if_pos (by simpa using heq)]
  · intro r
    refine ⟨?_, ?_, ?_, ?_, ?_, ?_, ?_, ?_, ?_, ?_, ?_, ?_, ?_, ?_, ?_, ?_,
      ?_, ?_, ?_, ?_, ?_, ?_, ?_, ?_, ?_, ?_, ?_, ?_, ?_, ?_, ?_, ?_⟩ <;>
      first
        | (intro h; simp [applyUpdates, h])
        | (intro v h; simp [applyUpdates, h])

/-- Two sample reservations for the update witnesses. -/
def resA : Reservation :=
  ⟨str "a", 1, str "Ann", str "Lee", str "111", str "2025-06-01",
   str "10:00", 100, 20, false, false, false, none, none, none, 0⟩

/-- Second sample reservation. -/
def resB : Reservation :=
  ⟨str "b", 2, str "Bob", str "Kim", str "222", str "2025-06-02",
   str "11:00", 200, 40, false, false, false, none, none, none, 1⟩

/-- An update that supplies only a first name. -/
def updZ : PartialReservation := { emptyPartial with firstName := some (str "Zoe") }

/-- Witness for C7: updating reservation "a" in `[resA, resB]` with a
first-name-only update keeps the length, rewrites only the first name of the
matching record, and leaves the non-matching record untouched. -/
theorem C7_update_frame_witness :
    (updateReservation [resA, resB] (str "a") updZ (Except.ok ())).2.length = 2 ∧
    (updateReservation [resA, resB] (str "a") updZ (Except.ok ())).2.get
      ⟨1, by decide⟩ = resB ∧
    (applyUpdates resA updZ).firstName = str "Zoe" ∧
    (applyUpdates resA updZ).lastName = resA.lastName := by
  obtain ⟨hlen, hget, hfields⟩ := C7_update_frame [resA, resB] (str "a") updZ
  refine ⟨hlen, ?_, ?_, ?_⟩
  · exact (hget 1 (by decide) (by decide)).1 (by decide)
  · exact (hfields resA).2.2.2.2.2.1 (str "Zoe") rfl
  · exact (hfields resA).2.2.2.2.2.2.1 rfl

/-- C8 (confirmed): when the persistence write fails, each of the three
data-context operations leaves the in-memory collection unchanged and
propagates the error to the caller (no retry, no partial application). -/
theorem C8_failure_atomic (state : List Reservation) (e : Str) (rid : Str)
    (u : PartialReservation) :
    addReservation state (Except.error e) = (Except.error e, state) ∧
    updateReservation state rid u (Except.error e) = (Except.error e, state) ∧
    deleteReservation state rid (Except.error e) = (Except.error e, state) := by
  exact ⟨rfl, rfl, rfl⟩

/-- The update object built by the deposit-paid toggle button,
`ViewReservations.tsx` lines 378-380:
`{ depositPaidStatus: !reservation.depositPaidStatus }`. -/
def depositToggleUpdates (r : Reservation) : PartialReservation :=
  { emptyPartial with depositPaidStatus := some (!r.depositPaidStatus) }

/-- The update object built by the rest-paid toggle button,
`ViewReservations.tsx` lines 397-400:
`{ restPaidStatus: !reservation.restPaidStatus,
   isPaid: !reservation.restPaidStatus ? true : reservation.isPaid }`. -/
def restToggleUpdates (r : Reservation) : PartialReservation :=
  { emptyPartial with
    restPaidStatus := some (!r.restPaidStatus),
    isPaid := some (if !r.restPaidStatus then true else r.isPaid) }

/-- C9 (confirmed): toggling rest-paid from false to true also sets the legacy
`isPaid` flag to true in the same update; toggling it from true to false
leaves `isPaid` unchanged; and the deposit-paid toggle never touches
`isPaid`. -/
theorem C9_toggle_legacy_flag (r : Reservation) :
    (r.restPaidStatus = false →
      (applyUpdates r (restToggleUpdates r)).restPaidStatus = true ∧
      (applyUpdates r (restToggleUpdates r)).isPaid = true) ∧
    (r.restPaidStatus = true →
      (applyUpdates r (restToggleUpdates r)).restPaidStatus = false ∧
      (applyUpdates r (restToggleUpdates r)).isPaid = r.isPaid) ∧
    ((applyUpdates r (depositToggleUpdates r)).isPaid = r.isPaid ∧
      (applyUpdates r (depositToggleUpdates r)).depositPaidStatus =
        !r.depositPaidStatus) := by
  refine ⟨?_, ?_, ?_, ?_⟩ <;>
    first
      | (intro h; simp [applyUpdates, restToggleUpdates, emptyPartial, h])
      | simp [applyUpdates, depositToggleUpdates, emptyPartial]

/-- A sample reservation that is already marked rest-paid. -/
def resC : Reservation :=
  ⟨str "c", 3, str "Cal", str "Roe", str "333", str "2025-06-03",
   str "12:00", 300, 60, true, true, true, none, none, none, 2⟩

/-- Witness for C9: on a not-yet-rest-paid sample the toggle sets both flags,
on a rest-paid sample it clears rest-paid and keeps `isPaid`; the deposit
toggle keeps `isPaid`. -/
theorem C9_toggle_legacy_flag_witness :
    ((applyUpdates resA (restToggleUpdates resA)).restPaidStatus = true ∧
      (applyUpdates resA (restToggleUpdates resA)).isPaid = true) ∧
    ((applyUpdates resC (restToggleUpdates resC)).restPaidStatus = false ∧
      (applyUpdates resC (restToggleUpdates resC)).isPaid = resC.isPaid) ∧
    (applyUpdates resA (depositToggleUpdates resA)).isPaid = resA.isPaid := by
  obtain ⟨hfalse, _, hdep, _⟩ := C9_toggle_legacy_flag resA
  obtain ⟨_, htrue, _, _⟩ := C9_toggle_legacy_flag resC
  exact ⟨hfalse rfl, htrue rfl, hdep⟩

/-- One attachment descriptor of the inbound email payload. -/
structure AttachmentPayload where
  filename : Option Str
  contentType : Option Str
  size : Option Nat
  url : Option Str
deriving DecidableEq

/-- The inbound email webhook payload (`InboundEmailPayload` in the edge
function), with `none` for an absent field.  `fromField` is the payload's
`from` (a Lean keyword). -/
structure InboundPayload where
  sender : Option Str
  fromField : Option Str
  recipient : Option Str
  subject : Option Str
  bodyPlain : Option Str
  bodyHtml : Option Str
  strippedText : Option Str
  strippedHtml : Option Str
  messageId : Option Str
  attachments : List AttachmentPayload
deriving DecidableEq

/-- JavaScript `a || d` for a possibly-absent string `a`: the default wins
when `a` is absent or empty (the only falsy string). -/
def orElseStr (o : Option Str) (d : Str) : Str :=
  match o with
  | some s => if s = [] then d else s
  | none => d

/-- JavaScript string coercion of `emailData.sender` as used on line 73 of
the ingester: an absent sender concatenates as the text "undefined". -/
def senderText (p : InboundPayload) : Str :=
  match p.sender with
  | some s => s
  | none => str "undefined"

/-- Line 73 of the ingester:
`emailData["Message-Id"] || emailData.sender + "-" + Date.now()`. -/
def messageIdOf (p : InboundPayload) (nowMs : Nat) : Str :=
  orElseStr p.messageId (senderText p ++ 45 :: natToDec nowMs)

/-- The `emails` row assembled by the ingester (lines 90-103).  The `headers`
JSON blob and `received_at` are omitted from the model: no claim concerns
them. -/
structure EmailRow where
  message_id : Str
  from_address : Str
  from_name : Str
  to_addresses : List Str
  subject : Str
  body_text : Str
  body_html : Str
  is_read : Bool
  is_archived : Bool
  direction : Str
deriving DecidableEq

/-- Build the email row exactly as the insert object of lines 90-103. -/
def buildEmailRow (p : InboundPayload) (nowMs : Nat) : EmailRow where
  message_id := messageIdOf p nowMs
  from_address := orElseStr p.sender (orElseStr p.fromField (str "unknown@sender.com"))
  from_name :=
    orElseStr p.fromField
      (orElseStr p.sender (orElseStr p.fromField (str "unknown@sender.com")))
  to_addresses :=
    match p.recipient with
    | some r => if r = [] then [] else [r]
    | none => []
  subject := orElseStr p.subject (str "(No Subject)")
  body_text := orElseStr p.strippedText (orElseStr p.bodyPlain [])
  body_html := orElseStr p.strippedHtml (orElseStr p.bodyHtml [])
  is_read := false
  is_archived := false
  direction := str "inbound"

/-- The `email_attachments` row assembled in the loop of lines 119-127. -/
structure EmailAttachmentRow where
  email_id : Nat
  filename : Str
  content_type : Str
  size_bytes : Nat
  storage_path : Str
deriving DecidableEq

/-- Build one attachment row per lines 121-127 (`attachment.size || 0`
coincides with defaulting an absent size to zero). -/
def buildAttachmentRow (emailId : Nat) (a : AttachmentPayload) :
    EmailAttachmentRow where
  email_id := emailId
  filename := orElseStr a.filename (str "unknown")
  content_type := orElseStr a.contentType (str "application/octet-stream")
  size_bytes := a.size.getD 0
  storage_path := orElseStr a.url []

/-- What the ingester hands back to the webhook caller, together with the
side effects observable in the database: the attachment rows that made it in,
and the logged (swallowed) errors. -/
structure WebhookOutcome where
  status : Nat
  success : Bool
  emailId : Option Nat
  attachmentsStored : List EmailAttachmentRow
  loggedErrors : List Str
deriving DecidableEq

/-- The attachment loop of lines 117-135: each insert failure is logged and
the loop continues; successes accumulate in the database. -/
def insertAttachmentsLoop (insertAttach : EmailAttachmentRow → Except Str Unit)
    (emailId : Nat) (atts : List AttachmentPayload) :
    List EmailAttachmentRow × List Str :=
  atts.foldl
    (fun acc a =>
      match insertAttach (buildAttachmentRow emailId a) with
      | Except.ok _ => (acc.1 ++ [buildAttachmentRow emailId a], acc.2)
      | Except.error e => (acc.1, acc.2 ++ [e]))
    ([], [])

/-- The request handler of the ingester after payload parsing: insert the
email row (its failure is rethrown, producing the 500 envelope of the catch
block), then run the attachment loop, then answer 200 with the email id. -/
def inboundHandler (p : InboundPayload) (nowMs : Nat)
    (insertEmail : EmailRow → Except Str Nat)
    (insertAttach : EmailAttachmentRow → Except Str Unit) : WebhookOutcome :=
  match insertEmail (buildEmailRow p nowMs) with
  | Except.error e => ⟨500, false, none, [], [e]⟩
  | Except.ok emailId =>
      let looped := insertAttachmentsLoop insertAttach emailId p.attachments
      ⟨200, true, some emailId, looped.1, looped.2⟩

/-- A payload whose `Message-Id` header is present but empty. -/
def payloadEmptyMsgId : InboundPayload :=
  ⟨some (str "a@b.com"), none, none, none, none, none, none, none,
   some [], []⟩

/-- C3 (counterexample): with a present-but-empty `Message-Id` header the
claim demands the stored identifier equal the supplied (empty) header value,
but the code's truthiness test falls through to the sender-timestamp form. -/
theorem C3_counterexample :
    payloadEmptyMsgId.messageId = some [] ∧
    messageIdOf payloadEmptyMsgId 1000 ≠ [] := by
  exact ⟨rfl, by decide⟩

/-- C3 (amended): the stored message identifier equals the supplied
`Message-Id` header value when that header is present and non-empty; when the
header is absent, and also when it is present but empty, it is the sender,
a hyphen, and the current timestamp in decimal; hence two header-less requests
with the same sender at two distinct millisecond timestamps receive distinct
identifiers. -/
theorem C3_message_id (p : InboundPayload) (s : Str) (t1 t2 : Nat) :
    (p.messageId = some s → s ≠ [] → messageIdOf p t1 = s) ∧
    (p.messageId = none →
      messageIdOf p t1 = senderText p ++ 45 :: natToDec t1) ∧
    (p.messageId = some [] →
      messageIdOf p t1 = senderText p ++ 45 :: natToDec t1) ∧
    (p.messageId = none → t1 ≠ t2 →
      messageIdOf p t1 ≠ messageIdOf p t2) := by
  refine ⟨?_, ?_, ?_, ?_⟩
  · intro h hne
    simp [messageIdOf, orElseStr, h, hne]
  · intro h
    simp [messageIdOf, orElseStr, h]
  · intro h
    simp [messageIdOf, orElseStr, h]
  · intro hmsg hne
    have hfall : ∀ t, messageIdOf p t = senderText p ++ 45 :: natToDec t := by
      intro t
      simp [messageIdOf, orElseStr, hmsg]
    rw [hfall t1, hfall t2]
    intro hcontra
    have h2 := List.append_cancel_left hcontra
    have h3 : natToDec t1 = natToDec t2 := by
      injection h2
    exact hne (natToDec_inj h3)

/-- Witness for C3 at concrete inputs: a non-empty header is stored verbatim;
a missing header at sender "a@b.com" and time 1 yields "a@b.com-1"; an empty
header falls back the same way; and times 1 and 2 give distinct identifiers
(the header being absent). -/
theorem C3_message_id_witness :
    messageIdOf ⟨some (str "a@b.com"), none, none, none, none, none, none,
      none, some (str "m1"), []⟩ 1 = str "m1" ∧
    messageIdOf ⟨some (str "a@b.com"), none, none, none, none, none, none,
      none, none, []⟩ 1 =
      senderText ⟨some (str "a@b.com"), none, none, none, none, none, none,
        none, none, []⟩ ++ 45 :: natToDec 1 ∧
    messageIdOf payloadEmptyMsgId 1 =
      senderText payloadEmptyMsgId ++ 45 :: natToDec 1 ∧
    messageIdOf ⟨some (str "a@b.com"), none, none, none, none, none, none,
      none, none, []⟩ 1 ≠
      messageIdOf ⟨some (str "a@b.com"), none, none, none, none, none, none,
        none, none, []⟩ 2 := by
  obtain ⟨hsome, _, _, _⟩ := C3_message_id
    ⟨some (str "a@b.com"), none, none, none, none, none, none, none,
      some (str "m1"), []⟩ (str "m1") 1 2
  obtain ⟨_, hnone, _, hdist⟩ := C3_message_id
    ⟨some (str "a@b.com"), none, none, none, none, none, none, none,
      none, []⟩ (str "m1") 1 2
  obtain ⟨_, _, hempty, _⟩ := C3_message_id payloadEmptyMsgId (str "m1") 1 2
  exact ⟨hsome rfl (by decide), hnone rfl, hempty rfl, hdist rfl (by decide)⟩

/-- C4 (confirmed): once the email-row insert succeeds, the handler answers
the success envelope with HTTP 200 and the inserted email's id, whatever the
attachment-insert oracle does: every attachment failure is only logged. -/
theorem C4_attachment_failures_skipped (p : InboundPayload) (nowMs : Nat)
    (insertEmail : EmailRow → Except Str Nat)
    (insertAttach : EmailAttachmentRow → Except Str Unit) (emailId : Nat)
    (h : insertEmail (buildEmailRow p nowMs) = Except.ok emailId) :
    (inboundHandler p nowMs insertEmail insertAttach).status = 200 ∧
    (inboundHandler p nowMs insertEmail insertAttach).success = true ∧
    (inboundHandler p nowMs insertEmail insertAttach).emailId = some emailId := by
  unfold inboundHandler
  rw [h]
  exact ⟨rfl, rfl, rfl⟩

/-- A payload carrying two attachments. -/
def payloadTwoAtts : InboundPayload :=
  ⟨some (str "a@b.com"), none, some (str "inbox@studio.com"),
   some (str "hello"), some (str "body"), none, none, none,
   some (str "mid-1"),
   [⟨some (str "a.png"), some (str "image/png"), some 10, some (str "u1")⟩,
    ⟨some (str "b.png"), some (str "image/png"), some 20, some (str "u2")⟩]⟩

/-- Witness for C4: with an email insert that yields id 7 and an attachment
oracle that fails every insert, the handler still answers 200 / success /
email id 7. -/
theorem C4_attachment_failures_skipped_witness :
    (inboundHandler payloadTwoAtts 5 (fun _ => Except.ok 7)
      (fun _ => Except.error (str "db down"))).status = 200 ∧
    (inboundHandler payloadTwoAtts 5 (fun _ => Except.ok 7)
      (fun _ => Except.error (str "db down"))).success = true ∧
    (inboundHandler payloadTwoAtts 5 (fun _ => Except.ok 7)
      (fun _ => Except.error (str "db down"))).emailId = some 7 := by
  exact C4_attachment_failures_skipped payloadTwoAtts 5 (fun _ => Except.ok 7)
    (fun _ => Except.error (str "db down")) 7 rfl

/-- C10 (confirmed): every email row written by the ingester has direction
"inbound" and both flags false; an absent subject defaults to "(No Subject)";
and when both `sender` and `from` are absent the from address defaults to
"unknown@sender.com". -/
theorem C10_email_row_invariant (p : InboundPayload) (nowMs : Nat) :
    (buildEmailRow p nowMs).direction = str "inbound" ∧
    (buildEmailRow p nowMs).is_read = false ∧
    (buildEmailRow p nowMs).is_archived = false ∧
    (p.subject = none → (buildEmailRow p nowMs).subject = str "(No Subject)") ∧
    (p.sender = none → p.fromField = none →
      (buildEmailRow p nowMs).from_address = str "unknown@sender.com") := by
  refine ⟨rfl, rfl, rfl, ?_, ?_⟩
  · intro h
    simp [buildEmailRow, orElseStr, h]
  · intro h1 h2
    simp [buildEmailRow, orElseStr, h1, h2]

/-- Witness for C10 on a payload with no subject, no sender and no from. -/
theorem C10_email_row_invariant_witness :
    (buildEmailRow ⟨none, none, none, none, none, none, none, none, none, []⟩
      3).direction = str "inbound" ∧
    (buildEmailRow ⟨none, none, none, none, none, none, none, none, none, []⟩
      3).subject = str "(No Subject)" ∧
    (buildEmailRow ⟨none, none, none, none, none, none, none, none, none, []⟩
      3).from_address = str "unknown@sender.com" := by
  obtain ⟨hdir, _, _, hsub, hfrom⟩ := C10_email_row_invariant
    ⟨none, none, none, none, none, none, none, none, none, []⟩ 3
  exact ⟨hdir, hsub rfl, hfrom rfl rfl⟩

end Studio
